import Mathlib

/-!
Verification of the agent-debate orchestration pipeline.

This file gives a shallow embedding of the core of the repository:
the discrepancy evaluator (`src/core/critic.py`), the model gateway
(`src/core/openrouter.py`), the concurrent dispatcher
(`src/core/engine.py`), the debate round builder (`src/core/debate.py`),
the agreement classifier (`src/core/agreement.py`), and the gated
pipeline state machine (`src/main.py`), together with theorems about
them.  Network calls are modelled by passing each call's outcome in as
data; everything downstream of an outcome is translated directly from
the Python source.
-/

namespace AgentDebate

/-! ## Data model (`src/core/schemas.py`) -/

/-- One discrepancy identified by the critic (`schemas.Discrepancy`).
`claim_id` and `confidence` are optional in the Pydantic model;
`claim_id = some ""` models an explicit empty-string id, which Python
treats as falsy. -/
structure Discrepancy where
  claim_id : Option String
  claim : String
  models_with_claim : List String
  models_missing_claim : List String
  confidence : Option Rat
deriving DecidableEq, Repr

/-- The critic verdict (`schemas.CriticEvaluation`). -/
structure CriticEvaluation where
  consensus_reached : Bool
  discrepancies : List Discrepancy
deriving DecidableEq, Repr

/-! ## Claim-id generation (`src/core/critic.py`, `_generate_claim_id`)

The Python function is
`s = re.sub(r"[^\w\s-]", "", claim_text.lower())`,
`s = re.sub(r"\s+", "-", s)`, `return s[:40].strip("-")`.
We model `\w` over its ASCII fragment (alphanumerics and underscore),
which covers every input the claims are settled on. -/

/-- ASCII fragment of the regex class `\w`: alphanumeric or underscore. -/
def isPyWordChar (c : Char) : Bool := c.isAlphanum || c = '_'

/-- A character kept by `re.sub(r"[^\w\s-]", "", s)`: word, whitespace
or hyphen. -/
def keepSlugChar (c : Char) : Bool := isPyWordChar c || c.isWhitespace || c = '-'

/-- `re.sub(r"\s+", "-", s)`: replace each maximal whitespace run by one
hyphen.  The flag records whether the previous character was whitespace
(i.e. we are inside a run already replaced). -/
def collapseWsAux : Bool → List Char → List Char
  | _, [] => []
  | inRun, c :: rest =>
    if c.isWhitespace then
      (if inRun then [] else ['-']) ++ collapseWsAux true rest
    else
      c :: collapseWsAux false rest

/-- Python `s.strip("-")`: remove hyphens from BOTH ends. -/
def stripHyphens (l : List Char) : List Char :=
  ((l.dropWhile (fun c => c = '-')).reverse.dropWhile (fun c => c = '-')).reverse

/-- `critic._generate_claim_id` with its default `max_len = 40` (the only
way the source ever calls it): lower-case, drop characters outside
`[\w\s-]`, collapse whitespace runs to hyphens, truncate to 40, strip
hyphens from both ends. -/
def _generate_claim_id (claim_text : String) : String :=
  String.mk (stripHyphens ((collapseWsAux false
    ((claim_text.data.map Char.toLower).filter keepSlugChar)).take 40))

/-- Python `s.strip("-")` restricted to the trailing end only. -/
def trimTrailingHyphens (l : List Char) : List Char :=
  (l.reverse.dropWhile (fun c => c = '-')).reverse

/-- The id derivation as the spec words it: identical pipeline but with
only the TRAILING hyphen trimmed, to be compared with the source's
`_generate_claim_id` (which strips both ends). -/
def claimIdDescribed (claim_text : String) : String :=
  String.mk (trimTrailingHyphens ((collapseWsAux false
    ((claim_text.data.map Char.toLower).filter keepSlugChar)).take 40))

/-! ## Evaluator post-processing (`src/core/critic.py`, lines 159-174) -/

/-- Python truthiness of the optional `claim_id` field: `None` and `""`
are falsy. -/
def pyTruthy (o : Option String) : Bool :=
  match o with
  | none => false
  | some s => !(s = "")

/-- The loop body `if not disc.claim_id: disc.claim_id = _generate_claim_id(disc.claim)`. -/
def fillClaimId (d : Discrepancy) : Discrepancy :=
  if pyTruthy d.claim_id then d
  else
    Discrepancy.mk (some (_generate_claim_id d.claim)) d.claim
      d.models_with_claim d.models_missing_claim d.confidence

/-- `valid_discrepancies = [d for d in evaluation.discrepancies if d.models_missing_claim]`. -/
def validDiscrepancies (e : CriticEvaluation) : List Discrepancy :=
  e.discrepancies.filter (fun d => !d.models_missing_claim.isEmpty)

/-- The post-processing block of `evaluate_differences` applied to a
successfully parsed critic verdict: keep only discrepancies whose
`models_missing_claim` is non-empty; if none remain, force
`consensus_reached = True`; otherwise fill in any missing `claim_id`. -/
def postProcess (e : CriticEvaluation) : CriticEvaluation :=
  if (validDiscrepancies e).isEmpty then
    CriticEvaluation.mk true (validDiscrepancies e)
  else
    CriticEvaluation.mk e.consensus_reached ((validDiscrepancies e).map fillClaimId)

/-- Outcome of the critic fetch-and-parse step feeding
`evaluate_differences`: the call failed (`not result.get("ok")`), the
returned content did not parse into the `CriticEvaluation` shape
(`json.JSONDecodeError` / `ValueError` from Pydantic), or it parsed. -/
inductive CriticResult where
  | failure (errType errMsg : String)
  | unparseable (raw : String)
  | parsed (e : CriticEvaluation)
deriving DecidableEq, Repr

/-- `critic.evaluate_differences` as a function of the critic call's
outcome: degrade to consensus-with-no-discrepancies on failure or parse
error, otherwise post-process the parsed verdict. -/
def evaluate_differences (r : CriticResult) : CriticEvaluation :=
  match r with
  | CriticResult.failure _ _ => CriticEvaluation.mk true []
  | CriticResult.unparseable _ => CriticEvaluation.mk true []
  | CriticResult.parsed e => postProcess e

/-! ### Helper lemmas about the evaluator -/

/-- After post-processing, an empty discrepancy list forces the
consensus flag. -/
lemma postProcess_consensus_of_empty (e : CriticEvaluation)
    (h : (postProcess e).discrepancies = []) :
    (postProcess e).consensus_reached = true := by
  unfold postProcess at h ⊢
  by_cases hv : (validDiscrepancies e).isEmpty
  · rw [if_pos hv]
  · rw [if_neg hv] at h ⊢
    exfalso
    have hnil : validDiscrepancies e = [] := List.map_eq_nil_iff.mp h
    rw [hnil] at hv
    exact hv rfl

/-- Every evaluator output with an empty discrepancy list has
`consensus_reached = true`. -/
lemma evaluate_differences_consensus_of_empty (r : CriticResult)
    (h : (evaluate_differences r).discrepancies = []) :
    (evaluate_differences r).consensus_reached = true := by
  cases r with
  | failure t m => rfl
  | unparseable raw => rfl
  | parsed e => exact postProcess_consensus_of_empty e h

/-- When the surviving list is non-empty, the critic's own consensus
flag is passed through unchanged. -/
lemma postProcess_preserves_flag (e : CriticEvaluation)
    (h : (postProcess e).discrepancies ≠ []) :
    (postProcess e).consensus_reached = e.consensus_reached := by
  unfold postProcess at h ⊢
  by_cases hv : (validDiscrepancies e).isEmpty
  · rw [if_pos hv] at h
    exact absurd (List.isEmpty_iff.mp hv) h
  · rw [if_neg hv]

/-! ## Model gateway (`src/core/openrouter.py`) -/

/-- The dict returned by `fetch_llm_response`: keys `ok`, `model`, and
optionally `content` (success) or `type`/`error` (failure).  Absent
keys are `none`; callers read them with `result.get(key, default)`. -/
structure FetchResult where
  ok : Bool
  model : String
  content : Option String
  errType : Option String
  errMsg : Option String
deriving DecidableEq, Repr

/-- Shape of a 2xx response body as seen by
`data["choices"][0]["message"]["content"]`: either the path exists and
holds a string, or indexing raises (`KeyError`/`IndexError`/`TypeError`,
described by its message). -/
inductive JsonBody where
  | contentAt (text : String)
  | badShape (description : String)
deriving DecidableEq, Repr

/-- Outcome of the one outbound HTTP call inside `fetch_llm_response`:
`httpx.TimeoutException`, `httpx.HTTPStatusError` (from
`raise_for_status`), `httpx.RequestError`, or a 2xx response whose
parsed JSON body is `body`. -/
inductive HttpOutcome where
  | timeoutExc
  | statusExc (status : Nat) (bodyText : String)
  | requestExc (description : String)
  | okResponse (body : JsonBody)
deriving DecidableEq, Repr

/-- `openrouter.fetch_llm_response` as a function of the HTTP outcome:
every branch of the `try`/`except` ladder returns a tagged dict and
nothing propagates (`json.JSONDecodeError` is a `ValueError`, hence the
last `except` also covers an unparseable body). -/
def fetch_llm_response (model : String) (outcome : HttpOutcome) : FetchResult :=
  match outcome with
  | HttpOutcome.okResponse (JsonBody.contentAt text) =>
      FetchResult.mk true model (some text) none none
  | HttpOutcome.okResponse (JsonBody.badShape d) =>
      FetchResult.mk false model none (some "parse_error")
        (some ("Malformed response payload: " ++ d))
  | HttpOutcome.timeoutExc =>
      FetchResult.mk false model none (some "timeout")
        (some "Request timed out after 30 seconds.")
  | HttpOutcome.statusExc status bodyText =>
      FetchResult.mk false model none (some "http_error")
        (some ("HTTP " ++ toString status ++ ": " ++ bodyText.take 300))
  | HttpOutcome.requestExc d =>
      FetchResult.mk false model none (some "request_error") (some d)

/-! ## Dispatcher (`src/core/engine.py`) -/

/-- One element of the list returned by
`asyncio.gather(..., return_exceptions=True)`: either an unexpected
exception (kept as its description) or the gateway's result dict. -/
inductive GatherItem where
  | exc (description : String)
  | res (r : FetchResult)
deriving DecidableEq, Repr

/-- `engine.INITIAL_MODELS`. -/
def INITIAL_MODELS : List String :=
  ["google/gemini-2.5-flash-lite", "anthropic/claude-3-haiku", "openai/gpt-4o-mini"]

/-- Loop body of `run_initial_models`: normalize one gathered outcome
into the response string stored for its model. -/
def normalizeOutcome (item : GatherItem) : String :=
  match item with
  | GatherItem.exc d => "ERROR (exception): " ++ d
  | GatherItem.res r =>
    if r.ok then r.content.getD ""
    else "ERROR (" ++ r.errType.getD "unknown" ++ "): " ++ r.errMsg.getD "Unknown error"

/-- The `for model, result in zip(models, results)` accumulation common
to `run_initial_models` and `run_debate_round`, building the ordered
model-to-text association (`f` is the per-item normalization). -/
def zipOutputs (f : String → GatherItem → String) :
    List String → List GatherItem → List (String × String)
  | [], _ => []
  | _, [] => []
  | m :: ms, r :: rs => (m, f m r) :: zipOutputs f ms rs

/-- `engine.run_initial_models` as a function of the gathered per-model
outcomes (one per entry of `INITIAL_MODELS`, in order). -/
def run_initial_models (results : List GatherItem) : List (String × String) :=
  zipOutputs (fun _ item => normalizeOutcome item) INITIAL_MODELS results

/-! ## Agreement classifier (`src/core/agreement.py`) -/

/-- Python `str.strip()`: drop whitespace from both ends (on the
character list). -/
def pyStrip (l : List Char) : List Char :=
  ((l.dropWhile Char.isWhitespace).reverse.dropWhile Char.isWhitespace).reverse

/-- `agreement.is_agreement` as a function of the classification call's
result dict: `False` when the call failed, otherwise compare the
stripped, lower-cased content against the exact string `"true"`. -/
def is_agreement (result : FetchResult) : Bool :=
  if !result.ok then false
  else (pyStrip (result.content.getD "").data).map Char.toLower == "true".data

/-! ## Debate round (`src/core/debate.py`) -/

/-- `debate.DEBATE_MODELS` (same list as the initial round). -/
def DEBATE_MODELS : List String :=
  ["google/gemini-2.5-flash-lite", "anthropic/claude-3-haiku", "openai/gpt-4o-mini"]

/-- Python `d.get(k, default)` on the model-to-text association. -/
def dictGet (d : List (String × String)) (k dflt : String) : String :=
  match d.find? (fun p => p.fst = k) with
  | some p => p.snd
  | none => dflt

/-- Loop body of `run_debate_round`: exceptions and failed calls are
normalized exactly as in the dispatcher; a successful reply classified
as a trivial agreement is replaced by the model's prior-round answer
`initial_responses.get(model, "")`.  The classifier network call is
modelled by `classifier`, mapping the reply text to the classification
call's result dict, fed to `is_agreement`. -/
def normalizeDebate (initial_responses : List (String × String))
    (classifier : String → FetchResult) (model : String) (item : GatherItem) : String :=
  match item with
  | GatherItem.exc d => "ERROR (exception): " ++ d
  | GatherItem.res r =>
    if r.ok then
      if is_agreement (classifier (r.content.getD "")) then
        dictGet initial_responses model ""
      else r.content.getD ""
    else "ERROR (" ++ r.errType.getD "unknown" ++ "): " ++ r.errMsg.getD "Unknown error"

/-- `debate.run_debate_round` as a function of the gathered per-model
reply outcomes (one per entry of `DEBATE_MODELS`, in order). -/
def run_debate_round (initial_responses : List (String × String))
    (classifier : String → FetchResult) (results : List GatherItem) :
    List (String × String) :=
  zipOutputs (normalizeDebate initial_responses classifier) DEBATE_MODELS results

/-! ## Pipeline state machine (`src/main.py`, `run_debate_pipeline`) -/

/-- Terminal synthesis mode: `generate_final_answer` (consensus) or
`generate_divergence_synthesis` (divergence). -/
inductive SynthMode where
  | consensus
  | divergence
deriving DecidableEq, Repr

/-- Observable trace of one pipeline run: how many critic passes and
debate rounds were executed, the terminal synthesis mode, and the
response set / evaluation handed to the synthesizer. -/
structure PipelineResult where
  passesRun : Nat
  debateRoundsRun : Nat
  mode : SynthMode
  finalResponses : List (String × String)
  finalEval : CriticEvaluation
deriving DecidableEq, Repr

/-- `main.run_debate_pipeline` as a function of the round outcomes:
`initialResponses` is the dispatcher's output, `debateResponses n` the
response set produced by debate round `n`, and `criticPass n` the
evaluator's verdict for pass `n`.  The gates (fast path, consensus,
circuit breaker `current_count >= initial_count`, terminal decision)
are translated branch for branch from the source. -/
def run_debate_pipeline (initialResponses : List (String × String))
    (debateResponses : Nat → List (String × String))
    (criticPass : Nat → CriticEvaluation) : PipelineResult :=
  let critic_eval_0 := criticPass 0
  if critic_eval_0.consensus_reached then
    PipelineResult.mk 1 0 SynthMode.consensus initialResponses critic_eval_0
  else
    let initial_count := critic_eval_0.discrepancies.length
    let debate_responses_1 := debateResponses 1
    let critic_eval_1 := criticPass 1
    if critic_eval_1.consensus_reached then
      PipelineResult.mk 2 1 SynthMode.consensus debate_responses_1 critic_eval_1
    else if initial_count ≤ critic_eval_1.discrepancies.length then
      PipelineResult.mk 2 1 SynthMode.divergence debate_responses_1 critic_eval_1
    else
      let debate_responses_2 := debateResponses 2
      let critic_eval_2 := criticPass 2
      if critic_eval_2.consensus_reached then
        PipelineResult.mk 3 2 SynthMode.consensus debate_responses_2 critic_eval_2
      else
        PipelineResult.mk 3 2 SynthMode.divergence debate_responses_2 critic_eval_2

/-! ## Further helper lemmas -/

/-- A discrepancy whose `claim_id` is truthy is left unchanged by the
id-filling loop. -/
lemma fillClaimId_of_truthy (d : Discrepancy) (h : pyTruthy d.claim_id = true) :
    fillClaimId d = d := by
  unfold fillClaimId
  rw [if_pos h]

/-- A discrepancy whose `claim_id` is falsy gets the generated id. -/
lemma fillClaimId_of_falsy (d : Discrepancy) (h : pyTruthy d.claim_id = false) :
    fillClaimId d =
      Discrepancy.mk (some (_generate_claim_id d.claim)) d.claim
        d.models_with_claim d.models_missing_claim d.confidence := by
  unfold fillClaimId
  rw [if_neg (by simp [h])]

/-- The id-filling loop never touches `models_missing_claim`. -/
lemma fillClaimId_missing (d : Discrepancy) :
    (fillClaimId d).models_missing_claim = d.models_missing_claim := by
  unfold fillClaimId
  split <;> rfl

/-- Membership in the filtered list, from membership and a non-empty
`models_missing_claim`. -/
lemma mem_validDiscrepancies (e : CriticEvaluation) (d : Discrepancy)
    (hmem : d ∈ e.discrepancies) (hmiss : d.models_missing_claim ≠ []) :
    d ∈ validDiscrepancies e := by
  refine List.mem_filter.mpr ⟨hmem, ?_⟩
  simp [List.isEmpty_iff, hmiss]

/-! ## Theorems for the claims -/

/-- C5: whenever the critic analysis call fails (`not result.get("ok")`)
or its output cannot be parsed into the Evaluation shape,
`evaluate_differences` returns an Evaluation with
`consensus_reached = true` and an empty discrepancy list; being a total
function of the call outcome, it never raises to its caller. -/
theorem evaluate_differences_degrades_on_failure :
    (∀ errType errMsg : String,
      evaluate_differences (CriticResult.failure errType errMsg) =
        CriticEvaluation.mk true []) ∧
    (∀ raw : String,
      evaluate_differences (CriticResult.unparseable raw) =
        CriticEvaluation.mk true []) :=
  ⟨fun _ _ => rfl, fun _ => rfl⟩

/-- C2 counterexample: for a parsed critic reply with
`consensus_reached = true` and one surviving discrepancy, the Evaluator
returns `consensus_reached = true` together with a NON-empty
discrepancy list, so `consensus_reached` is not equivalent to emptiness
of the discrepancy list and the reply is not corrected. -/
theorem evaluator_consensus_iff_counterexample :
    ¬(((evaluate_differences (CriticResult.parsed (CriticEvaluation.mk true
          [Discrepancy.mk none "x" ["m1"] ["m2"] none]))).consensus_reached = true) ↔
      (evaluate_differences (CriticResult.parsed (CriticEvaluation.mk true
          [Discrepancy.mk none "x" ["m1"] ["m2"] none]))).discrepancies = []) := by
  decide

/-- C2 (amended): the Evaluator forces `consensus_reached = true`
whenever the surviving discrepancy list is empty, regardless of the
critic's verdict; when the surviving list is non-empty, the critic's
own consensus flag is passed through unchanged — in particular a critic
reply with `consensus_reached = true` and surviving discrepancies is
NOT corrected to `false`. -/
theorem evaluator_consensus_empty_forced :
    (∀ r : CriticResult, (evaluate_differences r).discrepancies = [] →
      (evaluate_differences r).consensus_reached = true) ∧
    (∀ e : CriticEvaluation, (postProcess e).discrepancies ≠ [] →
      (postProcess e).consensus_reached = e.consensus_reached) :=
  ⟨evaluate_differences_consensus_of_empty, postProcess_preserves_flag⟩

/-- C2 witness: the amended theorem applied at a failed critic call and
at a parsed verdict with one surviving discrepancy and flag `false`. -/
theorem evaluator_consensus_empty_forced_witness :
    (evaluate_differences (CriticResult.failure "timeout" "boom")).consensus_reached = true ∧
    (postProcess (CriticEvaluation.mk false
        [Discrepancy.mk none "x" ["m1"] ["m2"] none])).consensus_reached = false := by
  refine ⟨evaluator_consensus_empty_forced.1 (CriticResult.failure "timeout" "boom") rfl, ?_⟩
  rw [evaluator_consensus_empty_forced.2 (CriticEvaluation.mk false
    [Discrepancy.mk none "x" ["m1"] ["m2"] none]) (by decide)]

/-- C6 counterexample: (1) the source's id derivation strips hyphens
from BOTH ends (`s[:40].strip("-")`), not only the trailing end as the
claim words it — the two disagree on the claim text `" a"`; (2) an
existing but empty-string `claim_id` is falsy in Python, so it is
regenerated rather than preserved unchanged. -/
theorem claim_id_counterexample :
    _generate_claim_id " a" ≠ claimIdDescribed " a" ∧
    (postProcess (CriticEvaluation.mk true
        [Discrepancy.mk (some "") "x y" ["m1"] ["m2"] none])).discrepancies.map
      Discrepancy.claim_id ≠ [some ""] := by
  decide

/-- C6 (amended): the id derivation `_generate_claim_id` is a
deterministic function of the claim text (lower-cased, punctuation
stripped, whitespace collapsed to hyphens, truncated to 40 characters,
leading and trailing hyphens trimmed), so identical claim text always
yields the identical id; in the Evaluator, a surviving discrepancy with
a truthy (non-empty) `claim_id` is kept unchanged, and a surviving
discrepancy whose `claim_id` is missing or empty receives exactly
`some (_generate_claim_id claim)` with every other field unchanged. -/
theorem claim_id_assignment (e : CriticEvaluation) (d : Discrepancy)
    (hmem : d ∈ e.discrepancies) (hmiss : d.models_missing_claim ≠ []) :
    (pyTruthy d.claim_id = true → d ∈ (postProcess e).discrepancies) ∧
    (pyTruthy d.claim_id = false →
      Discrepancy.mk (some (_generate_claim_id d.claim)) d.claim
          d.models_with_claim d.models_missing_claim d.confidence ∈
        (postProcess e).discrepancies) := by
  have hdv : d ∈ validDiscrepancies e := mem_validDiscrepancies e d hmem hmiss
  have hne : ¬(validDiscrepancies e).isEmpty := by
    intro hc
    rw [List.isEmpty_iff] at hc
    rw [hc] at hdv
    exact absurd hdv (List.not_mem_nil d)
  unfold postProcess
  rw [if_neg hne]
  constructor
  · intro ht
    simpa [fillClaimId_of_truthy d ht] using List.mem_map_of_mem fillClaimId hdv
  · intro hf
    simpa [fillClaimId_of_falsy d hf] using List.mem_map_of_mem fillClaimId hdv

/-- C6 witness: the amended theorem applied to a one-discrepancy
verdict lacking a `claim_id`. -/
theorem claim_id_assignment_witness :
    Discrepancy.mk (some (_generate_claim_id "x y")) "x y" ["m1"] ["m2"] none ∈
      (postProcess (CriticEvaluation.mk false
        [Discrepancy.mk none "x y" ["m1"] ["m2"] none])).discrepancies :=
  (claim_id_assignment (CriticEvaluation.mk false
      [Discrepancy.mk none "x y" ["m1"] ["m2"] none])
    (Discrepancy.mk none "x y" ["m1"] ["m2"] none)
    (by simp) (by decide)).2 rfl

/-- C7 counterexample: the filter-and-normalize step changes (1) an
Evaluation whose sole discrepancy has non-empty `models_missing_claim`
but no `claim_id` (the id gets filled), and (2) an Evaluation with an
empty discrepancy list and `consensus_reached = false` (the flag is
forced to `true`), although in both all discrepancies (vacuously) have
non-empty `models_missing_claim`. -/
theorem evaluator_refilter_counterexample :
    postProcess (CriticEvaluation.mk false
        [Discrepancy.mk none "x y" ["m1"] ["m2"] none]) ≠
      CriticEvaluation.mk false [Discrepancy.mk none "x y" ["m1"] ["m2"] none] ∧
    postProcess (CriticEvaluation.mk false []) ≠ CriticEvaluation.mk false [] := by
  decide

/-- C7 (amended): the filter-and-normalize step leaves an Evaluation
unchanged when its discrepancy list is non-empty and every discrepancy
has both a non-empty `models_missing_claim` and a truthy `claim_id`;
any discrepancy with empty `models_missing_claim` is removed, and if it
was the only discrepancy, the result is consensus with an empty list. -/
theorem evaluator_refilter (e : CriticEvaluation) :
    ((e.discrepancies ≠ [] ∧ ∀ d ∈ e.discrepancies,
        d.models_missing_claim ≠ [] ∧ pyTruthy d.claim_id = true) →
      postProcess e = e) ∧
    (∀ d ∈ e.discrepancies, d.models_missing_claim = [] →
      d ∉ (postProcess e).discrepancies) ∧
    (∀ d : Discrepancy, e.discrepancies = [d] → d.models_missing_claim = [] →
      postProcess e = CriticEvaluation.mk true []) := by
  refine ⟨?_, ?_, ?_⟩
  · rintro ⟨hne, hall⟩
    have hvalid : validDiscrepancies e = e.discrepancies := by
      unfold validDiscrepancies
      refine List.filter_eq_self.mpr (fun d hd => ?_)
      simp [List.isEmpty_iff, (hall d hd).1]
    have hempty : ¬(validDiscrepancies e).isEmpty := by
      rw [hvalid, List.isEmpty_iff]
      exact hne
    have hmap : (validDiscrepancies e).map fillClaimId = e.discrepancies := by
      rw [hvalid]
      have := List.map_congr_left (l := e.discrepancies) (f := fillClaimId) (g := id)
        (fun d hd => fillClaimId_of_truthy d (hall d hd).2)
      simpa using this
    unfold postProcess
    rw [if_neg hempty, hmap]
  · intro d hmem hmiss hcontra
    unfold postProcess at hcontra
    by_cases hv : (validDiscrepancies e).isEmpty
    · rw [if_pos hv] at hcontra
      rw [List.isEmpty_iff.mp hv] at hcontra
      exact absurd hcontra (List.not_mem_nil d)
    · rw [if_neg hv] at hcontra
      obtain ⟨d0, hd0, hfill⟩ := List.mem_map.mp hcontra
      have h0 : d0.models_missing_claim ≠ [] := by
        have := (List.mem_filter.mp hd0).2
        simpa [List.isEmpty_iff] using this
      rw [← hfill, fillClaimId_missing] at hmiss
      exact h0 hmiss
  · intro d hd hmiss
    have hv : validDiscrepancies e = [] := by
      unfold validDiscrepancies
      rw [hd]
      simp [List.isEmpty_iff, hmiss]
    unfold postProcess
    rw [if_pos (by rw [hv]; rfl), hv]

/-- C7 witness: the amended theorem applied to a well-formed
one-discrepancy Evaluation (fixpoint) and to a removal case. -/
theorem evaluator_refilter_witness :
    postProcess (CriticEvaluation.mk false
        [Discrepancy.mk (some "id1") "c" ["a"] ["b"] none]) =
      CriticEvaluation.mk false [Discrepancy.mk (some "id1") "c" ["a"] ["b"] none] ∧
    postProcess (CriticEvaluation.mk false
        [Discrepancy.mk (some "id2") "c" ["a", "b"] [] none]) =
      CriticEvaluation.mk true [] := by
  constructor
  · exact (evaluator_refilter (CriticEvaluation.mk false
      [Discrepancy.mk (some "id1") "c" ["a"] ["b"] none])).1 ⟨by decide, by decide⟩
  · exact (evaluator_refilter (CriticEvaluation.mk false
      [Discrepancy.mk (some "id2") "c" ["a", "b"] [] none])).2.2
      (Discrepancy.mk (some "id2") "c" ["a", "b"] [] none) rfl rfl

/-- Keys of the zipped output are exactly the requested models (when at
least as many gathered results as models are supplied). -/
lemma zipOutputs_map_fst (f : String → GatherItem → String) :
    ∀ (ms : List String) (rs : List GatherItem), ms.length ≤ rs.length →
      (zipOutputs f ms rs).map Prod.fst = ms := by
  intro ms
  induction ms with
  | nil => intro rs _; simp [zipOutputs]
  | cons m ms ih =>
    intro rs hlen
    cases rs with
    | nil => exact absurd hlen (by simp)
    | cons r rs =>
      simp only [zipOutputs, List.map_cons, List.cons.injEq, true_and]
      exact ih rs (Nat.le_of_succ_le_succ hlen)

/-- Entry `i` of the zipped output pairs model `i` with the
normalization of gathered result `i`. -/
lemma zipOutputs_getElem? (f : String → GatherItem → String) :
    ∀ (ms : List String) (rs : List GatherItem) (i : Nat)
      (him : i < ms.length) (hir : i < rs.length),
      (zipOutputs f ms rs)[i]? = some (ms[i], f ms[i] rs[i]) := by
  intro ms
  induction ms with
  | nil => intro rs i him _; exact absurd him (Nat.not_lt_zero i)
  | cons m ms ih =>
    intro rs i him hir
    cases rs with
    | nil => exact absurd hir (Nat.not_lt_zero i)
    | cons r rs =>
      cases i with
      | zero => simp [zipOutputs]
      | succ n =>
        simp only [zipOutputs, List.getElem?_cons_succ, List.getElem_cons_succ]
        exact ih rs n (Nat.lt_of_succ_lt_succ him) (Nat.lt_of_succ_lt_succ hir)

/-- C9 counterexample: a transport-level failure
(`httpx.RequestError`) is tagged with the kind string
`"request_error"`, which is not in the claimed kind set
`{timeout, http_error, transport_error, malformed_response}`. -/
theorem fetch_failure_kinds_counterexample :
    (fetch_llm_response "m" (HttpOutcome.requestExc "connection failed")).ok = false ∧
    ((fetch_llm_response "m" (HttpOutcome.requestExc "connection failed")).errType.getD "") ∉
      (["timeout", "http_error", "transport_error", "malformed_response"] : List String) := by
  decide

/-- C9 (amended): every failing Gateway call returns a `Failed` result
whose kind is drawn from `{timeout, http_error, request_error,
parse_error}` — timeouts map to `timeout`, non-2xx statuses to
`http_error`, transport-level failures to `request_error`, and a
response body missing the expected text field to `parse_error` — and
the call never raises to the caller (it is a total function of the
call's outcome). -/
theorem fetch_failure_kinds (model : String) (outcome : HttpOutcome)
    (h : (fetch_llm_response model outcome).ok = false) :
    ((fetch_llm_response model outcome).errType = some "timeout" ∨
     (fetch_llm_response model outcome).errType = some "http_error" ∨
     (fetch_llm_response model outcome).errType = some "request_error" ∨
     (fetch_llm_response model outcome).errType = some "parse_error") ∧
    (outcome = HttpOutcome.timeoutExc →
      (fetch_llm_response model outcome).errType = some "timeout") ∧
    (∀ s t, outcome = HttpOutcome.statusExc s t →
      (fetch_llm_response model outcome).errType = some "http_error") ∧
    (∀ d, outcome = HttpOutcome.requestExc d →
      (fetch_llm_response model outcome).errType = some "request_error") ∧
    (∀ d, outcome = HttpOutcome.okResponse (JsonBody.badShape d) →
      (fetch_llm_response model outcome).errType = some "parse_error") := by
  cases outcome with
  | timeoutExc => simp [fetch_llm_response]
  | statusExc s t => simp [fetch_llm_response]
  | requestExc d => simp [fetch_llm_response]
  | okResponse body =>
    cases body with
    | contentAt text => exact absurd h (by simp [fetch_llm_response])
    | badShape d => simp [fetch_llm_response]

/-- C9 witness: the amended theorem applied to a timed-out call. -/
theorem fetch_failure_kinds_witness :
    (fetch_llm_response "m" HttpOutcome.timeoutExc).errType = some "timeout" :=
  (fetch_failure_kinds "m" HttpOutcome.timeoutExc rfl).2.1 rfl

/-- C4: for every dispatch with one gathered outcome per requested
model, the output has exactly one entry per requested model, in order;
an `ok` result maps to its raw content, a failed result to
`"ERROR (<kind>): <message>"`, and an unexpected exception to
`"ERROR (exception): <description>"`, each entry depending only on its
own model's outcome (no other entry is dropped or altered). -/
theorem run_initial_models_complete (results : List GatherItem)
    (h : results.length = INITIAL_MODELS.length) :
    ((run_initial_models results).map Prod.fst = INITIAL_MODELS) ∧
    (∀ (i : Nat) (him : i < INITIAL_MODELS.length) (hir : i < results.length),
      (∀ r : FetchResult, results[i] = GatherItem.res r → r.ok = true →
        (run_initial_models results)[i]? =
          some (INITIAL_MODELS[i], r.content.getD "")) ∧
      (∀ (r : FetchResult) (t m : String), results[i] = GatherItem.res r →
        r.ok = false → r.errType = some t → r.errMsg = some m →
        (run_initial_models results)[i]? =
          some (INITIAL_MODELS[i], "ERROR (" ++ t ++ "): " ++ m)) ∧
      (∀ d : String, results[i] = GatherItem.exc d →
        (run_initial_models results)[i]? =
          some (INITIAL_MODELS[i], "ERROR (exception): " ++ d))) := by
  constructor
  · exact zipOutputs_map_fst _ INITIAL_MODELS results (le_of_eq h.symm)
  · intro i him hir
    have base := zipOutputs_getElem? (fun _ item => normalizeOutcome item)
      INITIAL_MODELS results i him hir
    refine ⟨?_, ?_, ?_⟩
    · intro r hres hok
      rw [run_initial_models, base, hres]
      simp [normalizeOutcome, hok]
    · intro r t m hres hok ht hm
      rw [run_initial_models, base, hres]
      simp [normalizeOutcome, hok, ht, hm]
    · intro d hres
      rw [run_initial_models, base, hres]
      simp [normalizeOutcome]

/-- C4 witness: the theorem applied to a dispatch where one model
succeeds, one raises an unexpected exception, and one fails — all three
entries are present. -/
theorem run_initial_models_witness :
    ((run_initial_models
        [GatherItem.res (FetchResult.mk true "google/gemini-2.5-flash-lite" (some "fine") none none),
         GatherItem.exc "boom",
         GatherItem.res (FetchResult.mk false "openai/gpt-4o-mini" none
           (some "timeout") (some "slow"))]).map Prod.fst = INITIAL_MODELS) ∧
    (run_initial_models
        [GatherItem.res (FetchResult.mk true "google/gemini-2.5-flash-lite" (some "fine") none none),
         GatherItem.exc "boom",
         GatherItem.res (FetchResult.mk false "openai/gpt-4o-mini" none
           (some "timeout") (some "slow"))])[1]? =
      some ("anthropic/claude-3-haiku", "ERROR (exception): boom") := by
  refine ⟨(run_initial_models_complete _ rfl).1, ?_⟩
  have h := ((run_initial_models_complete
      [GatherItem.res (FetchResult.mk true "google/gemini-2.5-flash-lite" (some "fine") none none),
       GatherItem.exc "boom",
       GatherItem.res (FetchResult.mk false "openai/gpt-4o-mini" none
         (some "timeout") (some "slow"))] rfl).2 1 (by decide) (by decide)).2.2 "boom" rfl
  exact h

/-- C8: in a debate round, a model whose successful reply is classified
as a trivial agreement gets its prior-round answer (the value passed in
`initial_responses`, looked up with default `""`) stored verbatim in
the output; a successful reply not so classified is stored as-is. -/
theorem debate_agreement_folding (initial_responses : List (String × String))
    (classifier : String → FetchResult) (results : List GatherItem)
    (i : Nat) (him : i < DEBATE_MODELS.length) (hir : i < results.length)
    (r : FetchResult) (hres : results[i] = GatherItem.res r) (hok : r.ok = true) :
    (is_agreement (classifier (r.content.getD "")) = true →
      (run_debate_round initial_responses classifier results)[i]? =
        some (DEBATE_MODELS[i], dictGet initial_responses DEBATE_MODELS[i] "")) ∧
    (is_agreement (classifier (r.content.getD "")) = false →
      (run_debate_round initial_responses classifier results)[i]? =
        some (DEBATE_MODELS[i], r.content.getD "")) := by
  have base := zipOutputs_getElem? (normalizeDebate initial_responses classifier)
    DEBATE_MODELS results i him hir
  constructor
  · intro hag
    rw [run_debate_round, base, hres]
    simp [normalizeDebate, hok, hag]
  · intro hag
    rw [run_debate_round, base, hres]
    simp [normalizeDebate, hok, hag]

/-- C8 witness: the theorem applied where the first model's reply is
classified as agreement — its entry is the prior-round answer, not the
new reply. -/
theorem debate_agreement_folding_witness :
    (run_debate_round [("google/gemini-2.5-flash-lite", "prior answer")]
        (fun _ => FetchResult.mk true "openai/gpt-4o-mini" (some "true") none none)
        [GatherItem.res (FetchResult.mk true "g" (some "I agree with my answer.") none none),
         GatherItem.exc "x", GatherItem.exc "y"])[0]? =
      some ("google/gemini-2.5-flash-lite", "prior answer") := by
  have h := (debate_agreement_folding
      [("google/gemini-2.5-flash-lite", "prior answer")]
      (fun _ => FetchResult.mk true "openai/gpt-4o-mini" (some "true") none none)
      [GatherItem.res (FetchResult.mk true "g" (some "I agree with my answer.") none none),
       GatherItem.exc "x", GatherItem.exc "y"]
      0 (by decide) (by decide)
      (FetchResult.mk true "g" (some "I agree with my answer.") none none)
      rfl rfl).1 (by decide)
  simpa [dictGet] using h

/-- C10: `is_agreement` returns `True` exactly when the classification
call succeeded and its content, stripped and lower-cased, is the exact
string `"true"`; hence a failed classifier call returns `False`, and in
`run_debate_round` a classifier failure never folds a model's new reply
back to its prior answer — the new reply is kept. -/
theorem is_agreement_fail_safe :
    (∀ result : FetchResult,
      is_agreement result = true ↔
        (result.ok = true ∧
          (pyStrip (result.content.getD "").data).map Char.toLower = "true".data)) ∧
    (∀ (initial_responses : List (String × String))
        (classifier : String → FetchResult) (results : List GatherItem)
        (i : Nat) (him : i < DEBATE_MODELS.length) (hir : i < results.length)
        (r : FetchResult), results[i] = GatherItem.res r → r.ok = true →
      (classifier (r.content.getD "")).ok = false →
      (run_debate_round initial_responses classifier results)[i]? =
        some (DEBATE_MODELS[i], r.content.getD "")) := by
  constructor
  · intro result
    unfold is_agreement
    cases hok : result.ok with
    | false => simp
    | true => simp
  · intro ir classifier results i him hir r hres hok hcl
    have hag : is_agreement (classifier (r.content.getD "")) = false := by
      unfold is_agreement
      simp [hcl]
    have base := zipOutputs_getElem? (normalizeDebate ir classifier)
      DEBATE_MODELS results i him hir
    rw [run_debate_round, base, hres]
    simp [normalizeDebate, hok, hag]

/-- C10 witness: with a timed-out classifier call, the model's new
reply is kept in the round's output. -/
theorem is_agreement_fail_safe_witness :
    (run_debate_round []
        (fun _ => FetchResult.mk false "openai/gpt-4o-mini" none
          (some "timeout") (some "slow"))
        [GatherItem.res (FetchResult.mk true "g" (some "new reply") none none),
         GatherItem.exc "x", GatherItem.exc "y"])[0]? =
      some ("google/gemini-2.5-flash-lite", "new reply") := by
  have h := is_agreement_fail_safe.2 []
    (fun _ => FetchResult.mk false "openai/gpt-4o-mini" none (some "timeout") (some "slow"))
    [GatherItem.res (FetchResult.mk true "g" (some "new reply") none none),
     GatherItem.exc "x", GatherItem.exc "y"]
    0 (by decide) (by decide)
    (FetchResult.mk true "g" (some "new reply") none none) rfl rfl rfl
  simpa using h

/-- C1: for every sequence of evaluation outcomes (and response sets),
one call to the pipeline entry point performs at most 3 evaluation
passes and at most 2 debate rounds before reaching a terminal
synthesis; moreover the pass count always exceeds the debate-round
count by exactly one, so no input can cause a 4th pass. -/
theorem run_debate_pipeline_bounded (initialResponses : List (String × String))
    (debateResponses : Nat → List (String × String))
    (criticPass : Nat → CriticEvaluation) :
    (run_debate_pipeline initialResponses debateResponses criticPass).passesRun ≤ 3 ∧
    (run_debate_pipeline initialResponses debateResponses criticPass).debateRoundsRun ≤ 2 ∧
    (run_debate_pipeline initialResponses debateResponses criticPass).passesRun =
      (run_debate_pipeline initialResponses debateResponses criticPass).debateRoundsRun + 1 := by
  unfold run_debate_pipeline
  by_cases h0 : (criticPass 0).consensus_reached = true
  · simp [h0]
  · by_cases h1 : (criticPass 1).consensus_reached = true
    · simp [h0, h1]
    · by_cases hc : (criticPass 0).discrepancies.length ≤ (criticPass 1).discrepancies.length
      · simp [h0, h1, hc]
      · by_cases h2 : (criticPass 2).consensus_reached = true
        · simp [h0, h1, hc, h2]
        · simp [h0, h1, hc, h2]

/-- C3: when pass 0 and pass 1 both fail to reach consensus, the
pipeline exits at Gate 1 in divergence mode — synthesizing over the
round-1 responses and the pass-1 evaluation, with debate round 2 never
run — exactly when the pass-1 discrepancy count is at least the pass-0
count (`initial_count`); debate round 2 runs exactly when the pass-1
count is strictly below `initial_count`, and, for evaluator-produced
pass-1 verdicts, that count is then strictly positive. -/
theorem gate1_circuit_breaker (initialResponses : List (String × String))
    (debateResponses : Nat → List (String × String))
    (criticPass : Nat → CriticEvaluation)
    (h0 : (criticPass 0).consensus_reached = false)
    (h1 : (criticPass 1).consensus_reached = false) :
    ((criticPass 0).discrepancies.length ≤ (criticPass 1).discrepancies.length →
      run_debate_pipeline initialResponses debateResponses criticPass =
        PipelineResult.mk 2 1 SynthMode.divergence (debateResponses 1) (criticPass 1)) ∧
    ((criticPass 1).discrepancies.length < (criticPass 0).discrepancies.length →
      (run_debate_pipeline initialResponses debateResponses criticPass).debateRoundsRun = 2) ∧
    ((run_debate_pipeline initialResponses debateResponses criticPass).debateRoundsRun = 2 →
      (criticPass 1).discrepancies.length < (criticPass 0).discrepancies.length) ∧
    ((∃ r : CriticResult, criticPass 1 = evaluate_differences r) →
      0 < (criticPass 1).discrepancies.length) := by
  refine ⟨?_, ?_, ?_, ?_⟩
  · intro hc
    unfold run_debate_pipeline
    simp [h0, h1, hc]
  · intro hlt
    unfold run_debate_pipeline
    have hc : ¬(criticPass 0).discrepancies.length ≤ (criticPass 1).discrepancies.length :=
      Nat.not_le.mpr hlt
    by_cases h2 : (criticPass 2).consensus_reached = true
    · simp [h0, h1, hc, h2]
    · simp [h0, h1, hc, h2]
  · intro hrun
    by_contra hge
    have hc : (criticPass 0).discrepancies.length ≤ (criticPass 1).discrepancies.length :=
      Nat.le_of_not_lt hge
    unfold run_debate_pipeline at hrun
    simp [h0, h1, hc] at hrun
  · rintro ⟨r, hr⟩
    by_contra hzero
    have hempty : (criticPass 1).discrepancies = [] :=
      List.length_eq_zero.mp (Nat.eq_zero_of_not_pos hzero)
    rw [hr] at hempty h1
    rw [evaluate_differences_consensus_of_empty r hempty] at h1
    exact absurd h1 (by simp)

/-- C3 witness: initial count 3, pass-1 count 4 — the pipeline exits at
Gate 1 in divergence mode over the round-1 responses and pass-1
evaluation. -/
theorem gate1_circuit_breaker_witness :
    run_debate_pipeline [("m", "a")] (fun _ => [("m", "b")])
      (fun n =>
        if n = 0 then
          CriticEvaluation.mk false
            [Discrepancy.mk (some "c1") "c1" ["x"] ["y"] none,
             Discrepancy.mk (some "c2") "c2" ["x"] ["y"] none,
             Discrepancy.mk (some "c3") "c3" ["x"] ["y"] none]
        else
          CriticEvaluation.mk false
            [Discrepancy.mk (some "c1") "c1" ["x"] ["y"] none,
             Discrepancy.mk (some "c2") "c2" ["x"] ["y"] none,
             Discrepancy.mk (some "c3") "c3" ["x"] ["y"] none,
             Discrepancy.mk (some "c4") "c4" ["x"] ["y"] none]) =
      PipelineResult.mk 2 1 SynthMode.divergence [("m", "b")]
        (CriticEvaluation.mk false
          [Discrepancy.mk (some "c1") "c1" ["x"] ["y"] none,
           Discrepancy.mk (some "c2") "c2" ["x"] ["y"] none,
           Discrepancy.mk (some "c3") "c3" ["x"] ["y"] none,
           Discrepancy.mk (some "c4") "c4" ["x"] ["y"] none]) := by
  have h := (gate1_circuit_breaker [("m", "a")] (fun _ => [("m", "b")])
    (fun n =>
      if n = 0 then
        CriticEvaluation.mk false
          [Discrepancy.mk (some "c1") "c1" ["x"] ["y"] none,
           Discrepancy.mk (some "c2") "c2" ["x"] ["y"] none,
           Discrepancy.mk (some "c3") "c3" ["x"] ["y"] none]
      else
        CriticEvaluation.mk false
          [Discrepancy.mk (some "c1") "c1" ["x"] ["y"] none,
           Discrepancy.mk (some "c2") "c2" ["x"] ["y"] none,
           Discrepancy.mk (some "c3") "c3" ["x"] ["y"] none,
           Discrepancy.mk (some "c4") "c4" ["x"] ["y"] none])
    rfl rfl).1 (by decide)
  simpa using h

end AgentDebate
